import Mathlib

/-!
Shallow embedding of the reentrancy-detector core (src/src/models.py,
src/src/detector.py, src/src/cli.py) together with the parts of the
parser/pattern layer that the repository ships only through its tests
and callers.  Pure Python functions become Lean functions; the file
system and the (absent) parser are abstracted as explicit inputs.
-/

namespace Reentrancy

/-- models.py `Severity`: enum with the five levels. -/
inductive Severity where
  | INFO
  | LOW
  | MEDIUM
  | HIGH
  | CRITICAL
deriving DecidableEq, Repr, Fintype

/-- Index of a severity in the `order` list of models.py `Severity.__lt__`
(`[INFO, LOW, MEDIUM, HIGH, CRITICAL]`). -/
def Severity.rank : Severity → Nat
  | .INFO => 0
  | .LOW => 1
  | .MEDIUM => 2
  | .HIGH => 3
  | .CRITICAL => 4

/-- models.py `Severity.__lt__`: `order.index(self) < order.index(other)`. -/
def Severity.lt (a b : Severity) : Bool :=
  a.rank < b.rank

/-- models.py `Severity.__ge__`: `not self.__lt__(other)`. -/
def Severity.ge (a b : Severity) : Bool :=
  !(Severity.lt a b)

/-- models.py `VulnerabilityType`. -/
inductive VulnerabilityType where
  | STATE_CHANGE_AFTER_CALL
  | EXTERNAL_CALL_IN_LOOP
  | MISSING_REENTRANCY_GUARD
  | CROSS_FUNCTION_REENTRANCY
  | DELEGATECALL_REENTRANCY
  | CREATE_REENTRANCY
deriving DecidableEq, Repr

/-- models.py `SourceLocation`. -/
structure SourceLocation where
  line : Nat
  column : Nat := 0
  end_line : Option Nat := none
  end_column : Option Nat := none
deriving DecidableEq, Repr

/-- models.py `CodeSnippet`. -/
structure CodeSnippet where
  code : String
  start_line : Nat
  highlight_lines : List Nat := []
deriving DecidableEq, Repr

/-- models.py `ExternalCall`. -/
structure ExternalCall where
  location : SourceLocation
  call_type : String
  target : String
  code : String
  in_loop : Bool := false
  loop_location : Option SourceLocation := none
deriving DecidableEq, Repr

/-- models.py `StateChange`. -/
structure StateChange where
  location : SourceLocation
  «variable» : String
  code : String
  change_type : String
deriving DecidableEq, Repr

/-- models.py `Function`. -/
structure Function where
  name : String
  location : SourceLocation
  visibility : String
  modifiers : List String := []
  external_calls : List ExternalCall := []
  state_changes : List StateChange := []
  state_reads : List String := []
  is_payable : Bool := false
  body_start_line : Nat := 0
  body_end_line : Nat := 0
deriving DecidableEq, Repr

/-- models.py `Contract`. -/
structure Contract where
  name : String
  location : SourceLocation
  functions : List Function := []
  state_variables : List String := []
  has_reentrancy_guard : Bool := false
  inherits : List String := []
deriving DecidableEq, Repr

/-- models.py `Vulnerability`. -/
structure Vulnerability where
  vuln_type : VulnerabilityType
  severity : Severity
  title : String
  description : String
  location : SourceLocation
  function_name : String
  contract_name : String
  code_snippet : Option CodeSnippet := none
  external_call : Option ExternalCall := none
  state_change : Option StateChange := none
  remediation : String := ""
  references : List String := []
  confidence : String := "high"
deriving DecidableEq, Repr

/-- models.py `AnalysisResult` (the wall-clock field `analysis_time_ms`
is real time and is not modelled). -/
structure AnalysisResult where
  file_path : String
  contracts : List Contract := []
  vulnerabilities : List Vulnerability := []
  parse_errors : List String := []
deriving DecidableEq, Repr

/-- models.py `AnalysisResult.critical_count`:
`sum(1 for v in self.vulnerabilities if v.severity == Severity.CRITICAL)`. -/
def AnalysisResult.critical_count (r : AnalysisResult) : Nat :=
  r.vulnerabilities.countP (fun v => v.severity == Severity.CRITICAL)

/-- models.py `AnalysisResult.high_count`. -/
def AnalysisResult.high_count (r : AnalysisResult) : Nat :=
  r.vulnerabilities.countP (fun v => v.severity == Severity.HIGH)

/-- models.py `AnalysisResult.medium_count`. -/
def AnalysisResult.medium_count (r : AnalysisResult) : Nat :=
  r.vulnerabilities.countP (fun v => v.severity == Severity.MEDIUM)

/-- models.py `AnalysisResult.low_count`. -/
def AnalysisResult.low_count (r : AnalysisResult) : Nat :=
  r.vulnerabilities.countP (fun v => v.severity == Severity.LOW)

/-- The `"summary"` object produced by models.py `AnalysisResult.to_dict`. -/
structure Summary where
  critical : Nat
  high : Nat
  medium : Nat
  low : Nat
  total : Nat
deriving DecidableEq, Repr

/-- models.py `AnalysisResult.to_dict`, restricted to its `"summary"`
field: the four bucket properties plus `"total": len(self.vulnerabilities)`. -/
def AnalysisResult.summary (r : AnalysisResult) : Summary :=
  { critical := r.critical_count
    high := r.high_count
    medium := r.medium_count
    low := r.low_count
    total := r.vulnerabilities.length }

/-- models.py `ScanResult` (wall-clock field omitted as for
`AnalysisResult`). -/
structure ScanResult where
  files_scanned : Nat := 0
  total_contracts : Nat := 0
  results : List AnalysisResult := []
deriving DecidableEq, Repr

/-- models.py `ScanResult.all_vulnerabilities`: the per-file lists
extended one after another, i.e. concatenation in file order. -/
def ScanResult.all_vulnerabilities (s : ScanResult) : List Vulnerability :=
  s.results.flatMap (fun r => r.vulnerabilities)

/-- models.py `ScanResult.critical_count`:
`sum(r.critical_count for r in self.results)`. -/
def ScanResult.critical_count (s : ScanResult) : Nat :=
  (s.results.map AnalysisResult.critical_count).sum

/-- models.py `ScanResult.high_count`. -/
def ScanResult.high_count (s : ScanResult) : Nat :=
  (s.results.map AnalysisResult.high_count).sum

/-- models.py `ScanResult.medium_count`. -/
def ScanResult.medium_count (s : ScanResult) : Nat :=
  (s.results.map AnalysisResult.medium_count).sum

/-- models.py `ScanResult.low_count`. -/
def ScanResult.low_count (s : ScanResult) : Nat :=
  (s.results.map AnalysisResult.low_count).sum

/-- detector.py `ReentrancyDetector.__init__` configuration:
`severity_threshold` (default LOW), `include_info` (default False),
`max_file_size` (default 1 MiB). -/
structure Config where
  severity_threshold : Severity := Severity.LOW
  include_info : Bool := false
  max_file_size : Nat := 1024 * 1024
deriving DecidableEq, Repr

/-- The filter predicate of detector.py `analyze_file` (lines 96-100):
`v.severity >= self.severity_threshold or (v.severity == Severity.INFO and self.include_info)`. -/
def file_keep (cfg : Config) (v : Vulnerability) : Bool :=
  Severity.ge v.severity cfg.severity_threshold
    || (v.severity == Severity.INFO && cfg.include_info)

/-- The filter predicate of detector.py `analyze_source` (lines 136-139):
`v.severity >= self.severity_threshold` only. -/
def source_keep (cfg : Config) (v : Vulnerability) : Bool :=
  Severity.ge v.severity cfg.severity_threshold

/-- One insertion step of a stable sort that is descending by severity:
the incoming element (earlier in detection order) goes in front of every
element of equal or lower severity rank it meets. -/
def insertBySeverityDesc (v : Vulnerability) :
    List Vulnerability → List Vulnerability
  | [] => [v]
  | w :: ws =>
      if w.severity.rank ≤ v.severity.rank then v :: w :: ws
      else w :: insertBySeverityDesc v ws

/-- detector.py `result.vulnerabilities.sort(key=lambda v: v.severity,
reverse=True)`: Python `list.sort` is a stable sort, so with the
severity key and `reverse=True` it is the stable descending sort by
severity rank, modelled here as a stable insertion sort. -/
def sortBySeverityDesc (vs : List Vulnerability) : List Vulnerability :=
  vs.foldr insertBySeverityDesc []

/-- detector.py `ReentrancyDetector.analyze_source`.  The parser
(`self.parser.parse`) and the per-contract pattern run
(`self._analyze_contract`, whose five patterns live in the `patterns`
module) are passed in as explicit functions; `parse` returning
`Except.error` models `self.parser.parse` raising. -/
def analyze_source (cfg : Config) (detect : Contract → List Vulnerability)
    (parse : String → Except String (List Contract))
    (source_code : String) (filename : String) : AnalysisResult :=
  match parse source_code with
  | Except.error e =>
      { file_path := filename
        parse_errors := ["Parse error: " ++ e] }
  | Except.ok contracts =>
      { file_path := filename
        contracts := contracts
        vulnerabilities :=
          sortBySeverityDesc
            ((contracts.flatMap detect).filter (source_keep cfg))
        parse_errors := [] }

/-- The slice of the file system that detector.py `analyze_file`
inspects about its path argument: existence, whether the suffix is
`.sol`, `stat().st_size`, and the outcome of `read_text` (`Except.error`
models the read raising). -/
structure FileInfo where
  path : String
  file_exists : Bool
  is_sol : Bool
  size : Nat
  read_result : Except String String
deriving Repr

/-- detector.py `ReentrancyDetector.analyze_file`: validation checks in
source order (existence, `.sol` suffix, size limit), then read, parse,
per-contract detection, the severity/info filter and the stable
descending sort. -/
def analyze_file (cfg : Config) (detect : Contract → List Vulnerability)
    (parse : String → Except String (List Contract))
    (fi : FileInfo) : AnalysisResult :=
  if fi.file_exists = false then
    { file_path := fi.path
      parse_errors := ["File not found: " ++ fi.path] }
  else if fi.is_sol = false then
    { file_path := fi.path
      parse_errors := ["Not a Solidity file: " ++ fi.path] }
  else if cfg.max_file_size < fi.size then
    { file_path := fi.path
      parse_errors := ["File too large: " ++ fi.path] }
  else
    match fi.read_result with
    | Except.error e =>
        { file_path := fi.path
          parse_errors := ["Error reading file: " ++ e] }
    | Except.ok source_code =>
        match parse source_code with
        | Except.error e =>
            { file_path := fi.path
              parse_errors := ["Parse error: " ++ e] }
        | Except.ok contracts =>
            { file_path := fi.path
              contracts := contracts
              vulnerabilities :=
                sortBySeverityDesc
                  ((contracts.flatMap detect).filter (file_keep cfg))
              parse_errors := [] }

/-- The statistics dictionary built by detector.py
`ReentrancyDetector.get_stats` (wall-clock entry omitted). -/
structure Stats where
  files : Nat
  contracts : Nat
  critical : Nat
  high : Nat
  medium : Nat
  low : Nat
  total : Nat
deriving DecidableEq, Repr

/-- detector.py `get_stats` on an `AnalysisResult`. -/
def get_stats_analysis (r : AnalysisResult) : Stats :=
  { files := 1
    contracts := r.contracts.length
    critical := r.critical_count
    high := r.high_count
    medium := r.medium_count
    low := r.low_count
    total := r.vulnerabilities.length }

/-- detector.py `get_stats` on a `ScanResult`. -/
def get_stats_scan (s : ScanResult) : Stats :=
  { files := s.files_scanned
    contracts := s.total_contracts
    critical := s.critical_count
    high := s.high_count
    medium := s.medium_count
    low := s.low_count
    total := s.all_vulnerabilities.length }

/-- cli.py `run_scan` lines 184-192, the exit-code computation after a
completed scan: `if stats['critical'] > 0 or stats['high'] > 0: return 1
elif stats['total'] > 0: return 1` and `return 0` otherwise. -/
def run_scan_exit_code (st : Stats) : Nat :=
  if 0 < st.critical || 0 < st.high then 1
  else if 0 < st.total then 1
  else 0

/-- A `for`/`while` loop span `[start_line, end_line]` detected by the
structural parser. -/
structure LoopSpan where
  start_line : Nat
  end_line : Nat
deriving DecidableEq, Repr

/-- Whether a loop span's line range contains a given line. -/
def LoopSpan.containsLine (sp : LoopSpan) (n : Nat) : Bool :=
  sp.start_line ≤ n && n ≤ sp.end_line

/-- Modelled from the spec: the parser module (`src/parser.py`,
`SolidityParser`) is not among the shipped source files, only its tests
and callers are.  Per §4.2 the innermost enclosing loop span is the
containing span that starts last. -/
def innermostLoop (spans : List LoopSpan) (n : Nat) : Option LoopSpan :=
  (spans.filter (fun sp => sp.containsLine n)).foldl
    (fun acc sp =>
      match acc with
      | none => some sp
      | some best =>
          if best.start_line ≤ sp.start_line then some sp else some best)
    none

/-- Modelled from the spec: the parser module (`src/parser.py`) is not
among the shipped source files.  Per §3/§4.2, `ExternalCall.in_loop` is
true iff the call's line lies within some detected loop span of the same
function, and `loop_location` is the innermost enclosing span. -/
def mark_in_loop (spans : List LoopSpan) (c : ExternalCall) : ExternalCall :=
  match innermostLoop spans c.location.line with
  | some sp =>
      { c with
        in_loop := true
        loop_location :=
          some { line := sp.start_line, end_line := some sp.end_line } }
  | none => { c with in_loop := false, loop_location := none }

/-- Modelled from the spec: the pattern module (`src/patterns.py`,
`ReentrancyPatterns.detect_state_change_after_call`) is not among the
shipped source files.  Per §4.3 row 1, detector 1 emits one CRITICAL
`state_change_after_call` finding per external call that has at least
one state change on a textually later line in the same function,
referencing the first such qualifying change only; title/description/
remediation are fixed text keyed by the vulnerability type. -/
def detect_state_change_after_call (f : Function) (cname : String) :
    List Vulnerability :=
  f.external_calls.filterMap (fun call =>
    (f.state_changes.find?
        (fun sc => call.location.line < sc.location.line)).map
      (fun sc =>
        { vuln_type := VulnerabilityType.STATE_CHANGE_AFTER_CALL
          severity := Severity.CRITICAL
          title := "State Change After External Call"
          description := "A state variable is modified after an external call"
          location := call.location
          function_name := f.name
          contract_name := cname
          external_call := some call
          state_change := some sc
          remediation := "Use the checks-effects-interactions pattern"
          references := []
          confidence := "high" }))

/-- Modelled from the spec: the pattern module (`src/patterns.py`,
`ReentrancyPatterns.detect_external_call_in_loop`) is not among the
shipped source files.  Per §4.3 row 2, detector 2 emits one HIGH
`external_call_in_loop` finding per external call with
`in_loop == true`. -/
def detect_external_call_in_loop (f : Function) (cname : String) :
    List Vulnerability :=
  (f.external_calls.filter (fun c => c.in_loop)).map (fun call =>
    { vuln_type := VulnerabilityType.EXTERNAL_CALL_IN_LOOP
      severity := Severity.HIGH
      title := "External Call Inside Loop"
      description := "An external call is performed inside a loop"
      location := call.location
      function_name := f.name
      contract_name := cname
      external_call := some call
      remediation := "Use a withdrawal pattern instead of looped sends"
      references := []
      confidence := "high" })

/-! Concrete inputs used to evaluate the definitions. -/

/-- A source location carrying just a line number. -/
def locAt (n : Nat) : SourceLocation :=
  { line := n }

/-- A minimal finding of the given type and severity at the given line. -/
def mkFinding (t : VulnerabilityType) (s : Severity) (n : Nat) :
    Vulnerability :=
  { vuln_type := t
    severity := s
    title := "t"
    description := "d"
    location := locAt n
    function_name := "f"
    contract_name := "C" }

def vInfo : Vulnerability :=
  mkFinding VulnerabilityType.CREATE_REENTRANCY Severity.INFO 2

def vLow : Vulnerability :=
  mkFinding VulnerabilityType.CROSS_FUNCTION_REENTRANCY Severity.LOW 3

def vMedium : Vulnerability :=
  mkFinding VulnerabilityType.MISSING_REENTRANCY_GUARD Severity.MEDIUM 4

def vHigh : Vulnerability :=
  mkFinding VulnerabilityType.EXTERNAL_CALL_IN_LOOP Severity.HIGH 5

def vCritical : Vulnerability :=
  mkFinding VulnerabilityType.STATE_CHANGE_AFTER_CALL Severity.CRITICAL 6

/-- An analysis result holding a single MEDIUM finding. -/
def mediumOnlyResult : AnalysisResult :=
  { file_path := "a.sol", vulnerabilities := [vMedium] }

/-- A file result holding a single LOW finding. -/
def lowFileResult : AnalysisResult :=
  { file_path := "low.sol", vulnerabilities := [vLow] }

/-- A file result holding a single CRITICAL finding. -/
def criticalFileResult : AnalysisResult :=
  { file_path := "crit.sol", vulnerabilities := [vCritical] }

/-- A two-file scan whose first file yields LOW and whose second yields
CRITICAL: the concatenated finding list is not sorted by severity. -/
def unsortedScan : ScanResult :=
  { files_scanned := 2
    total_contracts := 2
    results := [lowFileResult, criticalFileResult] }

def contractA : Contract :=
  { name := "A", location := locAt 1 }

/-- A per-contract detection run returning an INFO, a CRITICAL and a
MEDIUM finding, in that detection order. -/
def detectThree : Contract → List Vulnerability :=
  fun _ => [vInfo, vCritical, vMedium]

/-- A parser that succeeds with the single contract `A`. -/
def parseOk : String → Except String (List Contract) :=
  fun _ => Except.ok [contractA]

/-- A parser that fails on every input. -/
def parseFail : String → Except String (List Contract) :=
  fun _ => Except.error "unbalanced braces"

/-- A readable 10-byte `.sol` file. -/
def goodFile : FileInfo :=
  { path := "a.sol"
    file_exists := true
    is_sol := true
    size := 10
    read_result := Except.ok "contract A" }

/-- A path that does not exist. -/
def missingFile : FileInfo :=
  { path := "missing.sol"
    file_exists := false
    is_sol := true
    size := 0
    read_result := Except.error "no such file" }

/-- Threshold LOW with info inclusion requested. -/
def cfgInfoLow : Config :=
  { severity_threshold := Severity.LOW
    include_info := true
    max_file_size := 1024 }

def callAt (n : Nat) : ExternalCall :=
  { location := locAt n
    call_type := "call"
    target := "msg.sender"
    code := "msg.sender.call(amount)" }

def changeAt (n : Nat) : StateChange :=
  { location := locAt n
    «variable» := "balances"
    code := "balances[msg.sender] -= amount;"
    change_type := "decrement" }

/-- A `withdraw` that calls at line 6 and writes state at line 8. -/
def withdrawVuln : Function :=
  { name := "withdraw"
    location := locAt 4
    visibility := "external"
    external_calls := [callAt 6]
    state_changes := [changeAt 8] }

/-- A `withdraw` that writes state at line 6 and calls at line 8. -/
def withdrawSafe : Function :=
  { name := "withdraw"
    location := locAt 4
    visibility := "external"
    external_calls := [callAt 8]
    state_changes := [changeAt 6] }

def loopSpanEx : LoopSpan :=
  { start_line := 5, end_line := 8 }

/-- A `batchSend` whose single call at line 6 sits inside the loop span
`[5, 8]`. -/
def batchSend : Function :=
  { name := "batchSend"
    location := locAt 3
    visibility := "external"
    external_calls := [mark_in_loop [loopSpanEx] (callAt 6)] }

/-! Helper lemmas. -/

theorem sev_lt_iff {a b : Severity} :
    Severity.lt a b = true ↔ a.rank < b.rank := by
  simp [Severity.lt]

theorem sev_ge_iff {a b : Severity} :
    Severity.ge a b = true ↔ b.rank ≤ a.rank := by
  simp [Severity.ge, Severity.lt, Nat.not_lt]

theorem mem_insertBySeverityDesc {v w : Vulnerability}
    {l : List Vulnerability} :
    w ∈ insertBySeverityDesc v l ↔ w = v ∨ w ∈ l := by
  induction l with
  | nil => simp [insertBySeverityDesc]
  | cons x xs ih =>
      simp only [insertBySeverityDesc]
      split
      · simp [List.mem_cons]
      · simp only [List.mem_cons, ih]
        tauto

theorem mem_sortBySeverityDesc {w : Vulnerability}
    {vs : List Vulnerability} :
    w ∈ sortBySeverityDesc vs ↔ w ∈ vs := by
  induction vs with
  | nil => simp [sortBySeverityDesc]
  | cons v vs ih =>
      show w ∈ insertBySeverityDesc v (sortBySeverityDesc vs) ↔ _
      rw [mem_insertBySeverityDesc, ih, List.mem_cons]

theorem pairwise_insertBySeverityDesc {v : Vulnerability}
    {l : List Vulnerability}
    (h : l.Pairwise (fun a b => Severity.ge a.severity b.severity = true)) :
    (insertBySeverityDesc v l).Pairwise
      (fun a b => Severity.ge a.severity b.severity = true) := by
  induction l with
  | nil => simp [insertBySeverityDesc]
  | cons w ws ih =>
      rcases List.pairwise_cons.mp h with ⟨hw, hws⟩
      simp only [insertBySeverityDesc]
      split
      case isTrue hle =>
        refine List.pairwise_cons.mpr ⟨?_, h⟩
        intro x hx
        rcases List.mem_cons.mp hx with rfl | hx
        · rw [sev_ge_iff]
          exact hle
        · have hx' := hw x hx
          rw [sev_ge_iff] at hx' ⊢
          omega
      case isFalse hgt =>
        refine List.pairwise_cons.mpr ⟨?_, ih hws⟩
        intro x hx
        rcases mem_insertBySeverityDesc.mp hx with rfl | hx
        · rw [sev_ge_iff]
          omega
        · exact hw x hx

theorem pairwise_sortBySeverityDesc (vs : List Vulnerability) :
    (sortBySeverityDesc vs).Pairwise
      (fun a b => Severity.ge a.severity b.severity = true) := by
  induction vs with
  | nil => simp [sortBySeverityDesc]
  | cons v vs ih => exact pairwise_insertBySeverityDesc ih

theorem filter_insertBySeverityDesc (v : Vulnerability)
    (l : List Vulnerability) (s : Severity) :
    (insertBySeverityDesc v l).filter (fun w => w.severity == s)
      = if v.severity == s then
          v :: l.filter (fun w => w.severity == s)
        else l.filter (fun w => w.severity == s) := by
  induction l with
  | nil => simp [insertBySeverityDesc, List.filter_cons]
  | cons w ws ih =>
      simp only [insertBySeverityDesc]
      by_cases hle : w.severity.rank ≤ v.severity.rank
      · rw [if_pos hle]
        simp only [List.filter_cons]
      · rw [if_neg hle]
        simp only [List.filter_cons, ih]
        by_cases hv : (v.severity == s) = true
        · by_cases hw : (w.severity == s) = true
          · exfalso
            have hv' : v.severity = s := by
              exact beq_iff_eq.mp hv
            have hw' : w.severity = s := by
              exact beq_iff_eq.mp hw
            rw [hv', hw'] at hle
            omega
          · simp [hv, hw]
        · simp [hv]

theorem filter_sortBySeverityDesc (vs : List Vulnerability) (s : Severity) :
    (sortBySeverityDesc vs).filter (fun w => w.severity == s)
      = vs.filter (fun w => w.severity == s) := by
  induction vs with
  | nil => rfl
  | cons v vs ih =>
      show (insertBySeverityDesc v (sortBySeverityDesc vs)).filter _ = _
      rw [filter_insertBySeverityDesc, ih, List.filter_cons]

theorem length_eq_sum_severity_counts (l : List Vulnerability) :
    l.length
      = l.countP (fun v => v.severity == Severity.CRITICAL)
        + l.countP (fun v => v.severity == Severity.HIGH)
        + l.countP (fun v => v.severity == Severity.MEDIUM)
        + l.countP (fun v => v.severity == Severity.LOW)
        + l.countP (fun v => v.severity == Severity.INFO) := by
  induction l with
  | nil => simp
  | cons v l ih =>
      simp only [List.length_cons, List.countP_cons]
      cases h : v.severity <;> simp [h] <;> omega

theorem sum_map_countP_eq_countP_flatMap (rs : List AnalysisResult)
    (p : Vulnerability → Bool) :
    (rs.map (fun r => r.vulnerabilities.countP p)).sum
      = (rs.flatMap (fun r => r.vulnerabilities)).countP p := by
  induction rs with
  | nil => simp
  | cons r rs ih =>
      simp only [List.map_cons, List.sum_cons, List.flatMap_cons,
        List.countP_append, ih]

theorem scan_critical_count_eq (s : ScanResult) :
    s.critical_count
      = s.all_vulnerabilities.countP
          (fun v => v.severity == Severity.CRITICAL) :=
  sum_map_countP_eq_countP_flatMap s.results _

theorem scan_high_count_eq (s : ScanResult) :
    s.high_count
      = s.all_vulnerabilities.countP (fun v => v.severity == Severity.HIGH) :=
  sum_map_countP_eq_countP_flatMap s.results _

theorem scan_medium_count_eq (s : ScanResult) :
    s.medium_count
      = s.all_vulnerabilities.countP
          (fun v => v.severity == Severity.MEDIUM) :=
  sum_map_countP_eq_countP_flatMap s.results _

theorem scan_low_count_eq (s : ScanResult) :
    s.low_count
      = s.all_vulnerabilities.countP (fun v => v.severity == Severity.LOW) :=
  sum_map_countP_eq_countP_flatMap s.results _

theorem analyze_file_ok (cfg : Config)
    (detect : Contract → List Vulnerability)
    (parse : String → Except String (List Contract)) (fi : FileInfo)
    (src : String) (cs : List Contract)
    (hex : fi.file_exists = true) (hsol : fi.is_sol = true)
    (hsize : fi.size ≤ cfg.max_file_size)
    (hread : fi.read_result = Except.ok src)
    (hparse : parse src = Except.ok cs) :
    analyze_file cfg detect parse fi
      = { file_path := fi.path
          contracts := cs
          vulnerabilities :=
            sortBySeverityDesc
              ((cs.flatMap detect).filter (file_keep cfg))
          parse_errors := [] } := by
  unfold analyze_file
  simp [hex, hsol, Nat.not_lt.mpr hsize, hread, hparse]

theorem analyze_source_ok (cfg : Config)
    (detect : Contract → List Vulnerability)
    (parse : String → Except String (List Contract))
    (src fname : String) (cs : List Contract)
    (hparse : parse src = Except.ok cs) :
    analyze_source cfg detect parse src fname
      = { file_path := fname
          contracts := cs
          vulnerabilities :=
            sortBySeverityDesc
              ((cs.flatMap detect).filter (source_keep cfg))
          parse_errors := [] } := by
  unfold analyze_source
  rw [hparse]

/-! Claim theorems. -/

/-- C6: models.py `Severity.__lt__` is a strict total order with
INFO < LOW < MEDIUM < HIGH < CRITICAL (irreflexive, transitive, total on
distinct values), and the derived `__ge__` is its exact complement. -/
theorem severity_strict_total_order :
    (∀ a : Severity, Severity.lt a a = false)
    ∧ (∀ a b c : Severity,
        Severity.lt a b = true → Severity.lt b c = true →
          Severity.lt a c = true)
    ∧ (∀ a b : Severity,
        a ≠ b → Severity.lt a b = true ∨ Severity.lt b a = true)
    ∧ (∀ a b : Severity, Severity.ge a b = !(Severity.lt a b))
    ∧ (Severity.lt Severity.INFO Severity.LOW = true
        ∧ Severity.lt Severity.LOW Severity.MEDIUM = true
        ∧ Severity.lt Severity.MEDIUM Severity.HIGH = true
        ∧ Severity.lt Severity.HIGH Severity.CRITICAL = true)
    ∧ (∀ a b : Severity,
        Severity.ge a b = true ↔ ¬ Severity.lt a b = true) := by
  decide

/-- Witness for C6: the order decides between two distinct severities. -/
theorem severity_strict_total_order_witness :
    Severity.lt Severity.INFO Severity.MEDIUM = true
      ∨ Severity.lt Severity.MEDIUM Severity.INFO = true :=
  severity_strict_total_order.2.2.1 Severity.INFO Severity.MEDIUM
    (by decide)

/-- C9: in models.py `AnalysisResult`, the four summary buckets count
exactly the findings at that severity (so an INFO finding is in no
bucket), `to_dict`'s `total` is the full length of the vulnerabilities
list, and `total` equals the sum of the four buckets plus the number of
INFO findings. -/
theorem summary_buckets_and_total (r : AnalysisResult) :
    r.summary.critical
        = r.vulnerabilities.countP
            (fun v => v.severity == Severity.CRITICAL)
    ∧ r.summary.high
        = r.vulnerabilities.countP (fun v => v.severity == Severity.HIGH)
    ∧ r.summary.medium
        = r.vulnerabilities.countP (fun v => v.severity == Severity.MEDIUM)
    ∧ r.summary.low
        = r.vulnerabilities.countP (fun v => v.severity == Severity.LOW)
    ∧ r.summary.total = r.vulnerabilities.length
    ∧ r.summary.total
        = r.summary.critical + r.summary.high + r.summary.medium
            + r.summary.low
            + r.vulnerabilities.countP
                (fun v => v.severity == Severity.INFO) :=
  ⟨rfl, rfl, rfl, rfl, rfl,
    length_eq_sum_severity_counts r.vulnerabilities⟩

/-- Counterexample for C7: an analysis result with a single MEDIUM
finding makes cli.py `run_scan` return exit code 1 although it has no
CRITICAL and no HIGH finding, refuting "exit code 1 iff at least one
CRITICAL or HIGH finding exists". -/
theorem medium_only_exit_code_one :
    run_scan_exit_code (get_stats_analysis mediumOnlyResult) = 1
    ∧ mediumOnlyResult.critical_count = 0
    ∧ mediumOnlyResult.high_count = 0 := by
  decide

/-- C7 (amended): cli.py `run_scan`'s exit-code computation returns 1
iff the completed scan holds at least one finding of any severity, and 0
otherwise, for both single-file and directory results. -/
theorem run_scan_exit_code_iff_any_finding (r : AnalysisResult)
    (s : ScanResult) :
    run_scan_exit_code (get_stats_analysis r)
        = (if r.vulnerabilities = [] then 0 else 1)
    ∧ run_scan_exit_code (get_stats_scan s)
        = (if s.all_vulnerabilities = [] then 0 else 1) := by
  constructor
  · by_cases h : r.vulnerabilities = []
    · rw [if_pos h]
      simp [run_scan_exit_code, get_stats_analysis,
        AnalysisResult.critical_count, AnalysisResult.high_count, h]
    · rw [if_neg h]
      have hlen : 0 < r.vulnerabilities.length := List.length_pos.mpr h
      unfold run_scan_exit_code get_stats_analysis
      split <;> omega
  · by_cases h : s.all_vulnerabilities = []
    · rw [if_pos h]
      have h0 : s.all_vulnerabilities.length = 0 := by
        rw [h]
        rfl
      have hc : s.critical_count = 0 := by
        rw [scan_critical_count_eq, h]
        rfl
      have hh : s.high_count = 0 := by
        rw [scan_high_count_eq, h]
        rfl
      unfold run_scan_exit_code get_stats_scan
      simp [hc, hh, h0]
    · rw [if_neg h]
      have hlen : 0 < s.all_vulnerabilities.length :=
        List.length_pos.mpr h
      unfold run_scan_exit_code get_stats_scan
      split <;> omega

/-- Counterexample for C8: models.py `ScanResult.all_vulnerabilities`
is the plain concatenation of the per-file lists and nothing re-sorts it
after merging — a scan whose first file yields LOW and second yields
CRITICAL produces a combined list that is not sorted descending by
severity. -/
theorem scan_not_resorted :
    unsortedScan.all_vulnerabilities.map (fun v => v.severity)
        = [Severity.LOW, Severity.CRITICAL]
    ∧ ¬ unsortedScan.all_vulnerabilities.Pairwise
          (fun a b => Severity.ge a.severity b.severity = true) := by
  constructor
  · rfl
  · intro hp
    have e : unsortedScan.all_vulnerabilities = [vLow, vCritical] := rfl
    rw [e] at hp
    have h1 := (List.pairwise_cons.mp hp).1 vCritical (by simp)
    rw [sev_ge_iff] at h1
    simp [vLow, vCritical, mkFinding, Severity.rank] at h1

/-- C8 (amended): directory-scan results are merged by associative
aggregation: each severity count on `ScanResult` is the sum of the
per-file counts and agrees with counting over the merged list, and
`all_vulnerabilities` is the concatenation of the per-file lists in file
order; the merged list is not re-sorted. -/
theorem scan_merge_aggregation (s : ScanResult) :
    s.critical_count = (s.results.map AnalysisResult.critical_count).sum
    ∧ s.high_count = (s.results.map AnalysisResult.high_count).sum
    ∧ s.medium_count = (s.results.map AnalysisResult.medium_count).sum
    ∧ s.low_count = (s.results.map AnalysisResult.low_count).sum
    ∧ s.critical_count
        = s.all_vulnerabilities.countP
            (fun v => v.severity == Severity.CRITICAL)
    ∧ s.high_count
        = s.all_vulnerabilities.countP
            (fun v => v.severity == Severity.HIGH)
    ∧ s.medium_count
        = s.all_vulnerabilities.countP
            (fun v => v.severity == Severity.MEDIUM)
    ∧ s.low_count
        = s.all_vulnerabilities.countP
            (fun v => v.severity == Severity.LOW)
    ∧ s.all_vulnerabilities
        = s.results.flatMap (fun r => r.vulnerabilities) :=
  ⟨rfl, rfl, rfl, rfl, scan_critical_count_eq s, scan_high_count_eq s,
    scan_medium_count_eq s, scan_low_count_eq s, rfl⟩

/-- C1: on a successfully parsed source unit, detector.py
`analyze_file` returns exactly the detected findings that pass the
severity-threshold / info-inclusion filter, sorted descending by
severity with equal-severity findings kept in detection order (the
per-severity slices of the output equal those of the filtered detection
list). -/
theorem analyze_file_filter_and_stable_sort (cfg : Config)
    (detect : Contract → List Vulnerability)
    (parse : String → Except String (List Contract)) (fi : FileInfo)
    (src : String) (cs : List Contract)
    (hex : fi.file_exists = true) (hsol : fi.is_sol = true)
    (hsize : fi.size ≤ cfg.max_file_size)
    (hread : fi.read_result = Except.ok src)
    (hparse : parse src = Except.ok cs) :
    ((analyze_file cfg detect parse fi).vulnerabilities.Pairwise
        (fun a b => Severity.ge a.severity b.severity = true))
    ∧ (∀ s : Severity,
        (analyze_file cfg detect parse fi).vulnerabilities.filter
            (fun v => v.severity == s)
          = ((cs.flatMap detect).filter (file_keep cfg)).filter
              (fun v => v.severity == s))
    ∧ (∀ v : Vulnerability,
        v ∈ (analyze_file cfg detect parse fi).vulnerabilities
          ↔ v ∈ cs.flatMap detect ∧ file_keep cfg v = true) := by
  simp only [analyze_file_ok cfg detect parse fi src cs hex hsol hsize
    hread hparse]
  refine ⟨pairwise_sortBySeverityDesc _,
    fun s => filter_sortBySeverityDesc _ s, fun v => ?_⟩
  rw [mem_sortBySeverityDesc, List.mem_filter]

/-- Witness for C1 at a concrete file, config and detection run. -/
theorem analyze_file_filter_and_stable_sort_witness :
    goodFile.file_exists = true ∧ goodFile.is_sol = true
    ∧ goodFile.size ≤ cfgInfoLow.max_file_size
    ∧ (analyze_file cfgInfoLow detectThree parseOk
          goodFile).vulnerabilities.filter
          (fun v => v.severity == Severity.INFO)
        = (([contractA].flatMap detectThree).filter
              (file_keep cfgInfoLow)).filter
            (fun v => v.severity == Severity.INFO) :=
  ⟨rfl, rfl, by decide,
    (analyze_file_filter_and_stable_sort cfgInfoLow detectThree parseOk
        goodFile "contract A" [contractA] rfl rfl (by decide) rfl
        rfl).2.1 Severity.INFO⟩

/-- C3: detector.py `analyze_source` filters only by
`severity >= threshold` and never applies the info-inclusion rule,
while `analyze_file` additionally keeps INFO findings when
`include_info` is set: with info inclusion on and a threshold above
INFO, an INFO finding detected on identical source text is kept by
`analyze_file` but dropped by `analyze_source`. -/
theorem analyze_source_omits_info_rule (cfg : Config)
    (detect : Contract → List Vulnerability)
    (parse : String → Except String (List Contract)) (fi : FileInfo)
    (src fname : String) (cs : List Contract)
    (hex : fi.file_exists = true) (hsol : fi.is_sol = true)
    (hsize : fi.size ≤ cfg.max_file_size)
    (hread : fi.read_result = Except.ok src)
    (hparse : parse src = Except.ok cs)
    (hinc : cfg.include_info = true)
    (hthr : Severity.ge Severity.INFO cfg.severity_threshold = false)
    (v : Vulnerability) (hv : v ∈ cs.flatMap detect)
    (hsev : v.severity = Severity.INFO) :
    (∀ w : Vulnerability,
        w ∈ (analyze_source cfg detect parse src fname).vulnerabilities
          ↔ w ∈ cs.flatMap detect
              ∧ Severity.ge w.severity cfg.severity_threshold = true)
    ∧ v ∈ (analyze_file cfg detect parse fi).vulnerabilities
    ∧ v ∉ (analyze_source cfg detect parse src fname).vulnerabilities := by
  have hmem_src : ∀ w : Vulnerability,
      w ∈ (analyze_source cfg detect parse src fname).vulnerabilities
        ↔ w ∈ cs.flatMap detect ∧ source_keep cfg w = true := by
    intro w
    simp only [analyze_source_ok cfg detect parse src fname cs hparse]
    rw [mem_sortBySeverityDesc, List.mem_filter]
  refine ⟨fun w => hmem_src w, ?_, ?_⟩
  · have hmem_file :=
      (analyze_file_filter_and_stable_sort cfg detect parse fi src cs
          hex hsol hsize hread hparse).2.2 v
    rw [hmem_file]
    refine ⟨hv, ?_⟩
    simp [file_keep, hsev, hinc, hthr]
  · rw [hmem_src v]
    rintro ⟨-, hk⟩
    rw [source_keep, hsev, hthr] at hk
    cases hk

/-- Witness for C3: the concrete INFO finding survives `analyze_file`
and is dropped by `analyze_source` under threshold LOW with info
inclusion on. -/
theorem analyze_source_omits_info_rule_witness :
    cfgInfoLow.include_info = true
    ∧ Severity.ge Severity.INFO cfgInfoLow.severity_threshold = false
    ∧ vInfo ∈ (analyze_file cfgInfoLow detectThree parseOk
          goodFile).vulnerabilities
    ∧ vInfo ∉ (analyze_source cfgInfoLow detectThree parseOk
          "contract A" "contract.sol").vulnerabilities :=
  ⟨rfl, by decide,
    (analyze_source_omits_info_rule cfgInfoLow detectThree parseOk
        goodFile "contract A" "contract.sol" [contractA] rfl rfl
        (by decide) rfl rfl rfl (by decide) vInfo (by decide) rfl).2.1,
    (analyze_source_omits_info_rule cfgInfoLow detectThree parseOk
        goodFile "contract A" "contract.sol" [contractA] rfl rfl
        (by decide) rfl rfl rfl (by decide) vInfo (by decide) rfl).2.2⟩

/-- C4: when parsing fails, both detector.py `analyze_source` and
`analyze_file` return a result with a non-empty `parse_errors` list and
empty `contracts` and `vulnerabilities` lists — no partial data and no
propagated exception. -/
theorem parse_failure_empty_result (cfg : Config)
    (detect : Contract → List Vulnerability)
    (parse : String → Except String (List Contract))
    (src fname e : String)
    (hparse : parse src = Except.error e)
    (fi : FileInfo) (hex : fi.file_exists = true)
    (hsol : fi.is_sol = true) (hsize : fi.size ≤ cfg.max_file_size)
    (hread : fi.read_result = Except.ok src) :
    ((analyze_source cfg detect parse src fname).parse_errors ≠ []
      ∧ (analyze_source cfg detect parse src fname).contracts = []
      ∧ (analyze_source cfg detect parse src fname).vulnerabilities = [])
    ∧ ((analyze_file cfg detect parse fi).parse_errors ≠ []
      ∧ (analyze_file cfg detect parse fi).contracts = []
      ∧ (analyze_file cfg detect parse fi).vulnerabilities = []) := by
  have hs : analyze_source cfg detect parse src fname
      = { file_path := fname
          parse_errors := ["Parse error: " ++ e] } := by
    unfold analyze_source
    rw [hparse]
  have hf : analyze_file cfg detect parse fi
      = { file_path := fi.path
          parse_errors := ["Parse error: " ++ e] } := by
    unfold analyze_file
    simp [hex, hsol, Nat.not_lt.mpr hsize, hread, hparse]
  rw [hs, hf]
  simp

/-- Witness for C4 at a parser that fails on every input. -/
theorem parse_failure_empty_result_witness :
    parseFail "contract A" = Except.error "unbalanced braces"
    ∧ (analyze_source cfgInfoLow detectThree parseFail "contract A"
          "contract.sol").vulnerabilities = []
    ∧ (analyze_file cfgInfoLow detectThree parseFail
          goodFile).contracts = [] :=
  ⟨rfl,
    (parse_failure_empty_result cfgInfoLow detectThree parseFail
        "contract A" "contract.sol" "unbalanced braces" rfl goodFile rfl
        rfl (by decide) rfl).1.2.2,
    (parse_failure_empty_result cfgInfoLow detectThree parseFail
        "contract A" "contract.sol" "unbalanced braces" rfl goodFile rfl
        rfl (by decide) rfl).2.2.1⟩

/-- C10: for a path that does not exist, lacks the `.sol` suffix, or
exceeds the size limit, detector.py `analyze_file` returns exactly one
parse error with empty contract and vulnerability lists, and the result
does not depend on the parser or the detection run (no source is
parsed). -/
theorem invalid_file_one_error_no_parse (cfg : Config)
    (detect : Contract → List Vulnerability)
    (parse : String → Except String (List Contract)) (fi : FileInfo)
    (h : fi.file_exists = false ∨ fi.is_sol = false
          ∨ cfg.max_file_size < fi.size) :
    (analyze_file cfg detect parse fi).parse_errors.length = 1
    ∧ (analyze_file cfg detect parse fi).contracts = []
    ∧ (analyze_file cfg detect parse fi).vulnerabilities = []
    ∧ ∀ (detect₂ : Contract → List Vulnerability)
        (parse₂ : String → Except String (List Contract)),
        analyze_file cfg detect parse fi
          = analyze_file cfg detect₂ parse₂ fi := by
  cases hb : fi.file_exists with
  | false => simp [analyze_file, hb]
  | true =>
      cases hsol : fi.is_sol with
      | false => simp [analyze_file, hb, hsol]
      | true =>
          have hsz : cfg.max_file_size < fi.size := by
            rcases h with h | h | h
            · rw [hb] at h
              cases h
            · rw [hsol] at h
              cases h
            · exact h
          simp [analyze_file, hb, hsol, hsz]

/-- Witness for C10 at a path that does not exist. -/
theorem invalid_file_one_error_no_parse_witness :
    (missingFile.file_exists = false ∨ missingFile.is_sol = false
        ∨ cfgInfoLow.max_file_size < missingFile.size)
    ∧ (analyze_file cfgInfoLow detectThree parseOk
          missingFile).parse_errors.length = 1 :=
  ⟨Or.inl rfl,
    (invalid_file_one_error_no_parse cfgInfoLow detectThree parseOk
        missingFile (Or.inl rfl)).1⟩

theorem length_filterMap_map_find {α β γ : Type} (l : List α)
    (ls : List β) (p : α → β → Bool) (g : α → β → γ) :
    (l.filterMap (fun a => ((ls.find? (p a)).map (g a)))).length
      = (l.filter (fun a => ls.any (p a))).length := by
  induction l with
  | nil => rfl
  | cons a l ih =>
      simp only [List.filterMap_cons, List.filter_cons]
      cases h : ls.find? (p a) with
      | none =>
          have hany : ls.any (p a) = false := by
            rw [List.find?_eq_none] at h
            rw [Bool.eq_false_iff]
            intro hx
            rcases List.any_eq_true.mp hx with ⟨x, hmem, hpx⟩
            exact h x hmem hpx
          simp [hany, ih]
      | some b =>
          have hany : ls.any (p a) = true :=
            List.any_eq_true.mpr
              ⟨b, List.mem_of_find?_eq_some h, List.find?_some h⟩
          simp [hany, ih]

theorem foldl_innermost_isSome (l : List LoopSpan)
    (acc : Option LoopSpan) :
    (l.foldl (fun acc sp =>
        match acc with
        | none => some sp
        | some best =>
            if best.start_line ≤ sp.start_line then some sp
            else some best) acc).isSome
      = (acc.isSome || !l.isEmpty) := by
  induction l generalizing acc with
  | nil => simp
  | cons sp l ih =>
      rw [List.foldl_cons, ih]
      cases acc with
      | none => simp
      | some best =>
          simp only [Option.isSome_some, Bool.true_or, List.isEmpty_cons,
            Bool.not_false, Bool.or_true]
          split <;> rfl

theorem innermostLoop_isSome_iff (spans : List LoopSpan) (n : Nat) :
    (innermostLoop spans n).isSome = true
      ↔ ∃ sp ∈ spans, sp.containsLine n = true := by
  unfold innermostLoop
  rw [foldl_innermost_isSome]
  simp only [Option.isSome_none, Bool.false_or, Bool.not_eq_true',
    List.isEmpty_eq_false]
  constructor
  · intro h
    rcases List.exists_mem_of_ne_nil _ h with ⟨sp, hsp⟩
    exact ⟨sp, (List.mem_filter.mp hsp).1, (List.mem_filter.mp hsp).2⟩
  · rintro ⟨sp, hmem, hp⟩
    intro hnil
    have : sp ∈ ([] : List LoopSpan) := by
      rw [← hnil]
      exact List.mem_filter.mpr ⟨hmem, hp⟩
    cases this

theorem mark_in_loop_in_loop_eq (spans : List LoopSpan)
    (c : ExternalCall) :
    (mark_in_loop spans c).in_loop
      = (innermostLoop spans c.location.line).isSome := by
  unfold mark_in_loop
  cases h : innermostLoop spans c.location.line <;> rfl

/-- C2 (modelled from the spec, `src/patterns.py` being absent):
detector 1 emits exactly one CRITICAL `state_change_after_call` finding
per external call textually followed by a state change in the same
function, each finding referencing that call and the first qualifying
state change only, and a function whose state changes all precede its
external calls yields no finding. -/
theorem state_change_after_call_spec (f : Function) (cname : String) :
    ((detect_state_change_after_call f cname).length
        = (f.external_calls.filter
            (fun c => f.state_changes.any
                (fun sc => c.location.line < sc.location.line))).length)
    ∧ (∀ v ∈ detect_state_change_after_call f cname,
          v.severity = Severity.CRITICAL
          ∧ v.vuln_type = VulnerabilityType.STATE_CHANGE_AFTER_CALL
          ∧ ∃ c ∈ f.external_calls,
              v.external_call = some c
              ∧ v.state_change
                  = f.state_changes.find?
                      (fun sc => c.location.line < sc.location.line))
    ∧ ((∀ sc ∈ f.state_changes, ∀ c ∈ f.external_calls,
            sc.location.line < c.location.line)
        → detect_state_change_after_call f cname = []) := by
  refine ⟨?_, ?_, ?_⟩
  · exact length_filterMap_map_find f.external_calls f.state_changes
      (fun c sc => c.location.line < sc.location.line) _
  · intro v hv
    rcases List.mem_filterMap.mp hv with ⟨c, hc, hfc⟩
    rcases Option.map_eq_some'.mp hfc with ⟨sc, hfind, hgv⟩
    subst hgv
    exact ⟨rfl, rfl, c, hc, rfl, hfind.symm⟩
  · intro hall
    unfold detect_state_change_after_call
    rw [List.filterMap_eq_nil_iff]
    intro c hc
    have hnone : f.state_changes.find?
        (fun sc => c.location.line < sc.location.line) = none := by
      rw [List.find?_eq_none]
      intro sc hsc
      have := hall sc hsc c hc
      simp only [decide_eq_true_eq]
      omega
    rw [hnone]
    rfl

/-- Witness for C2: the vulnerable `withdraw` (call line 6, write line
8) satisfies the cardinality equation, and the safe `withdraw` (write
line 6, call line 8) yields no finding. -/
theorem state_change_after_call_spec_witness :
    ((detect_state_change_after_call withdrawVuln "Vulnerable").length
        = (withdrawVuln.external_calls.filter
            (fun c => withdrawVuln.state_changes.any
                (fun sc => c.location.line < sc.location.line))).length)
    ∧ (∀ sc ∈ withdrawSafe.state_changes,
          ∀ c ∈ withdrawSafe.external_calls,
            sc.location.line < c.location.line)
    ∧ detect_state_change_after_call withdrawSafe "Safe" = [] :=
  ⟨(state_change_after_call_spec withdrawVuln "Vulnerable").1,
    by decide,
    (state_change_after_call_spec withdrawSafe "Safe").2.2 (by decide)⟩

/-- C5 (modelled from the spec, `src/parser.py` and `src/patterns.py`
being absent): an external call is marked `in_loop` iff its line lies
within some detected loop span of the same function, and detector 2
emits exactly one HIGH `external_call_in_loop` finding per call with
`in_loop == true`. -/
theorem in_loop_marking_and_loop_detector :
    (∀ (spans : List LoopSpan) (c : ExternalCall),
        (mark_in_loop spans c).in_loop = true
          ↔ ∃ sp ∈ spans,
              sp.start_line ≤ c.location.line
                ∧ c.location.line ≤ sp.end_line)
    ∧ (∀ (f : Function) (cname : String),
        (detect_external_call_in_loop f cname).length
            = (f.external_calls.filter (fun c => c.in_loop)).length
        ∧ ∀ v ∈ detect_external_call_in_loop f cname,
            v.severity = Severity.HIGH
            ∧ v.vuln_type = VulnerabilityType.EXTERNAL_CALL_IN_LOOP
            ∧ ∃ c ∈ f.external_calls,
                c.in_loop = true ∧ v.external_call = some c) := by
  constructor
  · intro spans c
    rw [mark_in_loop_in_loop_eq, innermostLoop_isSome_iff]
    simp [LoopSpan.containsLine]
  · intro f cname
    constructor
    · exact List.length_map _ _
    · intro v hv
      rcases List.mem_map.mp hv with ⟨c, hc, rfl⟩
      rcases List.mem_filter.mp hc with ⟨hmem, hloop⟩
      exact ⟨rfl, rfl, c, hmem, hloop, rfl⟩

/-- Witness for C5: the call at line 6 inside the loop span `[5, 8]` is
marked in-loop, and `batchSend` satisfies the cardinality equation. -/
theorem in_loop_marking_and_loop_detector_witness :
    (mark_in_loop [loopSpanEx] (callAt 6)).in_loop = true
    ∧ (detect_external_call_in_loop batchSend "LoopVuln").length
        = (batchSend.external_calls.filter (fun c => c.in_loop)).length :=
  ⟨(in_loop_marking_and_loop_detector.1 [loopSpanEx] (callAt 6)).mpr
      ⟨loopSpanEx, by simp, by decide, by decide⟩,
    (in_loop_marking_and_loop_detector.2 batchSend "LoopVuln").1⟩

end Reentrancy
